import Mathlib

/-!
Verification of the identity/recipient resolution and credential acquisition
core of the repository (source files `src/age.rs` and `src/main.rs`) against
its natural-language specification.

The Rust code is shallowly embedded: each Rust function becomes a Lean
function over an explicit model of the process state (environment variables,
file contents, external command execution).  External collaborators (the age
encryption library, the shell, the UTF-8 decoder of the standard library)
are modelled at their interface boundary, as the specification prescribes in
its sections 4 and 6; everything under `src/` is translated directly.
-/

namespace GitAgecrypt

/-! ## Recipient resolution (`src/age.rs`, `load_public_keys`) -/

/-- Interface-boundary model of `age::plugin::Recipient`: a recipient string
that parsed in the plugin-recipient format, carrying the plugin name
(returned by its `plugin()` accessor) and the raw recipient string. -/
structure PluginRecipient where
  plugin : String
  raw : String
deriving DecidableEq

/-- A recipient string, characterised by the outcomes of the three external
parsers `load_public_keys` tries on it, in the order the Rust code tries
them: `str::parse::<age::x25519::Recipient>`, `str::parse::<age::ssh::Recipient>`,
`str::parse::<age::plugin::Recipient>`.  Each field is `some` exactly when
the corresponding parser accepts the raw string.  The parsers themselves are
external library code; a real string (for example an age1... bech32 public
key) succeeds under at most one of them, but the model does not rely on
that. -/
structure RecipientString where
  raw : String
  parseX25519 : Option String
  parseSsh : Option String
  parsePlugin : Option PluginRecipient
deriving DecidableEq

/-- The recipient objects `load_public_keys` produces
(`Vec<Box<dyn Recipient + Send>>` in the source): X25519 recipients, SSH
recipients, and `RecipientPluginV1` plugin handles, each of the latter
carrying a plugin name and the plugin recipients handed to it. -/
inductive Recipient where
  | x25519 (key : String)
  | ssh (key : String)
  | pluginV1 (pluginName : String) (recipients : List PluginRecipient)
deriving DecidableEq

/-- Errors raised by the functions of `src/age.rs`; each constructor mirrors
one `bail!` or `with_context` site and carries the data interpolated into
that message. -/
inductive AgeError where
  /-- bail with the fixed message text carried here (the source writes the
  literal string, with no recipient interpolated). -/
  | invalidRecipient (msg : String)
  /-- Failed to open identity file (names the path). -/
  | openFailed (path : String)
  /-- Encrypted identity file is not passphrase-encrypted (names the path). -/
  | notPassphraseEncrypted (path : String)
  /-- Failed to parse encrypted identity file (names the path). -/
  | parseEncryptedFailed (path : String)
  /-- AGE_PASSPHRASE environment variable not set, needed to decrypt the
  named path. -/
  | passphraseNotSet (path : String)
  /-- Decrypting the passphrase-wrapped identity file failed (wrong
  passphrase or corrupt container); the bare decrypt error of the library,
  propagated by the question-mark operator at the decrypt call. -/
  | decryptFailed (path : String)
  /-- Decrypted identity file is not valid UTF-8 (names the path). -/
  | notUtf8 (path : String)
  /-- Failed to parse decrypted identity file (names the path). -/
  | parseDecryptedFailed (path : String)
  /-- Passphrase encrypted files are not supported (ciphertext is scrypt). -/
  | passphraseCiphertext
  /-- An underlying I/O error other than unexpected EOF, propagated. -/
  | ioError (msg : String)
  /-- Failed to decrypt: no matching identity found; carries the configured
  identity paths enumerated in the message. -/
  | noMatchingIdentity (paths : List String)
deriving DecidableEq

/-- The fixed error message of the invalid-recipient `bail!` in
`load_public_keys` (`src/age.rs` line 192): the literal text, with no
interpolation of the offending string. -/
def invalidRecipientMsg : String := "Invalid recipient"

/-- Interface-boundary model of `age::plugin::RecipientPluginV1::new`:
given a plugin name and the collected plugin recipients, it keeps exactly
the recipients whose `plugin()` equals the given name (the library filters
the slice it is handed) and produces one plugin handle. -/
def RecipientPluginV1_new (plugin_name : String) (plugin_recipients : List PluginRecipient) :
    Recipient :=
  Recipient.pluginV1 plugin_name (plugin_recipients.filter (fun r => r.plugin == plugin_name))

/-- The classification loop of `load_public_keys` (`src/age.rs` lines
184-194): per string, try the X25519 parser, then the SSH parser, then the
plugin parser, pushing the first success onto the respective vector; if all
three fail, bail with the fixed invalid-recipient message. -/
def classify_keys : List RecipientString → Except AgeError (List Recipient × List PluginRecipient)
  | [] => Except.ok ([], [])
  | pubk :: rest =>
    match pubk.parseX25519 with
    | some pk => (classify_keys rest).map (fun rp => (Recipient.x25519 pk :: rp.1, rp.2))
    | none =>
      match pubk.parseSsh with
      | some pk => (classify_keys rest).map (fun rp => (Recipient.ssh pk :: rp.1, rp.2))
      | none =>
        match pubk.parsePlugin with
        | some r => (classify_keys rest).map (fun rp => (rp.1, r :: rp.2))
        | none => Except.error (AgeError.invalidRecipient invalidRecipientMsg)

/-- `load_public_keys` (`src/age.rs` lines 180-202): classify every string,
then iterate over the plugin names of the collected plugin recipients —
one loop step per collected plugin recipient, with no deduplication of
names — constructing a `RecipientPluginV1` from the full collected list at
each step and appending it to the recipients. -/
def load_public_keys (public_keys : List RecipientString) : Except AgeError (List Recipient) :=
  (classify_keys public_keys).map fun rp =>
    rp.1 ++ (rp.2.map (fun r => r.plugin)).map
      (fun plugin_name => RecipientPluginV1_new plugin_name rp.2)

/-- A recipient string that parses only in the plugin-recipient format,
for the given plugin name. -/
def pluginOnlyString (name raw : String) : RecipientString :=
  { raw := raw, parseX25519 := none, parseSsh := none,
    parsePlugin := some { plugin := name, raw := raw } }

/-- A recipient string that fails all three parsers. -/
def unparsableString (s : String) : RecipientString :=
  { raw := s, parseX25519 := none, parseSsh := none, parsePlugin := none }

/-! ## Identity resolution (`src/age.rs`, `load_identities`) -/

/-- A plaintext-native identity (one encoded secret key extracted from an
identity file), identified by its encoded key string. -/
structure NativeIdentity where
  key : String
deriving DecidableEq

/-- The process environment as read by `src/age.rs`: the AGE_PASSPHRASE
environment variable (the Credential of the specification), `none` when
unset. -/
structure Env where
  agePassphrase : Option String
deriving DecidableEq

/-- Interface-boundary model of the bytes decrypted out of a
passphrase-wrapped identity file, classified by the two external operations
the source applies to them, `String::from_utf8` and
`age::IdentityFile::from_buffer`: the inner content is either a valid
plaintext-native identity file (UTF-8, parses), another passphrase-wrapped
age container (armored form is UTF-8 text, binary form is not, and neither
parses as an identity file — container bytes begin with the age header or
armor marker, never with identity-file lines), other valid UTF-8 text that
is not an identity file, or bytes that are not valid UTF-8. -/
inductive InnerContent where
  | nativeIdentities (ids : List NativeIdentity)
  | nestedScryptContainer (armored : Bool)
  | otherText (s : String)
  | binaryGarbage
deriving DecidableEq

/-- Whether `String::from_utf8` succeeds on the decrypted bytes. -/
def InnerContent.isValidUtf8 : InnerContent → Bool
  | InnerContent.nativeIdentities _ => true
  | InnerContent.nestedScryptContainer armored => armored
  | InnerContent.otherText _ => true
  | InnerContent.binaryGarbage => false

/-- The identities `age::IdentityFile::from_buffer` followed by
`into_identities` extracts from the decrypted text, `none` when the text is
not a valid plaintext-native identity file. -/
def InnerContent.parseIdentityBuffer : InnerContent → Option (List NativeIdentity)
  | InnerContent.nativeIdentities ids => some ids
  | InnerContent.nestedScryptContainer _ => none
  | InnerContent.otherText _ => none
  | InnerContent.binaryGarbage => none

/-- Interface-boundary model of the content of an identity file on disk,
classified by the external parsers `load_identities` applies to it in
order: `age::IdentityFile::from_file` (succeeds exactly on the
plaintext-native form, yielding its identities), then `File::open` plus
`age::Decryptor::new` over an `ArmoredReader` (a passphrase-wrapped scrypt
container carrying its passphrase and inner content, a container wrapped to
public-key recipients instead, or bytes that are no recognizable container
at all); `unreadable` is a path `File::open` fails on (which also makes
`IdentityFile::from_file` fail first). -/
inductive FileData where
  | plaintextIdentityFile (ids : List NativeIdentity)
  | scryptContainer (passphrase : String) (inner : InnerContent)
  | recipientContainer
  | garbage
  | unreadable
deriving DecidableEq

/-- The per-path body of the loop of `load_identities` (`src/age.rs` lines
98-154): try `IdentityFile::from_file`; on success extract the identities
(this branch never reads AGE_PASSPHRASE).  Otherwise open the file and
parse it as an age container; a non-scrypt container and an unparsable file
bail.  For a scrypt container, read AGE_PASSPHRASE (absence is the
credential-required error naming the path), decrypt with it as a single
scrypt identity (failure propagates the decrypt error), require the
decrypted bytes to be UTF-8, and re-parse them with
`IdentityFile::from_buffer` — plaintext form only, no recursion. -/
def load_one_identity (env : Env) (path : String) (data : FileData) :
    Except AgeError (List NativeIdentity) :=
  match data with
  | FileData.plaintextIdentityFile ids => Except.ok ids
  | FileData.unreadable => Except.error (AgeError.openFailed path)
  | FileData.recipientContainer => Except.error (AgeError.notPassphraseEncrypted path)
  | FileData.garbage => Except.error (AgeError.parseEncryptedFailed path)
  | FileData.scryptContainer pass inner =>
    match env.agePassphrase with
    | none => Except.error (AgeError.passphraseNotSet path)
    | some p =>
      if p = pass then
        if inner.isValidUtf8 then
          match inner.parseIdentityBuffer with
          | some ids => Except.ok ids
          | none => Except.error (AgeError.parseDecryptedFailed path)
        else Except.error (AgeError.notUtf8 path)
      else Except.error (AgeError.decryptFailed path)

/-- `load_identities` (`src/age.rs` lines 95-157): fold the per-path load
over the identity paths (each given with the file content found at it),
accumulating all extracted identities in order and failing at the first
failing path. -/
def load_identities (env : Env) : List (String × FileData) → Except AgeError (List NativeIdentity)
  | [] => Except.ok []
  | (path, data) :: rest =>
    match load_one_identity env path data with
    | Except.error e => Except.error e
    | Except.ok ids =>
      match load_identities env rest with
      | Except.error e => Except.error e
      | Except.ok more => Except.ok (ids ++ more)

/-! ## The cipher gateway (`src/age.rs`, `decrypt`) -/

/-- Interface-boundary model of the ciphertext stream handed to `decrypt`,
classified by what the external age library recognises in it: empty input,
input truncated before a complete container header, arbitrary bytes that
are not a recognised container, a stream whose underlying reader fails with
an I/O error other than unexpected EOF, a passphrase (scrypt) container,
or a container wrapped to public-key recipients (carrying the set of
identity keys that can unwrap it and its payload). -/
inductive CiphertextStream where
  | empty
  | truncatedHeader (bytes : String)
  | nonContainer (bytes : String)
  | ioFailure (msg : String)
  | scryptContainer
  | keyContainer (unwrapKeys : List String) (payload : String)
deriving DecidableEq

/-- A successfully constructed decryptor: whether the container is
passphrase (scrypt) encrypted, which identity keys unwrap it, and its
payload. -/
structure Decryptor where
  is_scrypt : Bool
  unwrapKeys : List String
  payload : String
deriving DecidableEq

/-- Outcome of `age::Decryptor::new` over an `ArmoredReader`, as matched by
`decrypt` (`src/age.rs` lines 64-83): success, `DecryptError::InvalidHeader`,
an I/O error of kind unexpected EOF, or another I/O error. -/
inductive DecryptorNewResult where
  | ok (d : Decryptor)
  | invalidHeader
  | ioUnexpectedEof
  | ioOther (msg : String)
deriving DecidableEq

/-- Interface-boundary model of `age::Decryptor::new(ArmoredReader::new(..))`
(external library, spec section 4.4 and the source comment at
`src/age.rs` line 74): empty input and input truncated before a full header
fail with an unexpected-EOF I/O error, unrecognised bytes fail with
`InvalidHeader`, an underlying reader failure surfaces as another I/O
error, and well-formed containers yield a decryptor reporting whether they
are scrypt-encrypted. -/
def Decryptor_new : CiphertextStream → DecryptorNewResult
  | CiphertextStream.empty => DecryptorNewResult.ioUnexpectedEof
  | CiphertextStream.truncatedHeader _ => DecryptorNewResult.ioUnexpectedEof
  | CiphertextStream.nonContainer _ => DecryptorNewResult.invalidHeader
  | CiphertextStream.ioFailure m => DecryptorNewResult.ioOther m
  | CiphertextStream.scryptContainer =>
    DecryptorNewResult.ok { is_scrypt := true, unwrapKeys := [], payload := "" }
  | CiphertextStream.keyContainer ks p =>
    DecryptorNewResult.ok { is_scrypt := false, unwrapKeys := ks, payload := p }

/-- `decrypt` (`src/age.rs` lines 57-93): first load every identity file
(propagating any failure), then construct the decryptor — a scrypt
container bails, an invalid header or unexpected EOF returns `Ok(None)`,
any other I/O error bails — and finally decrypt with the loaded
identities, failing with a message enumerating the configured identity
paths when none matches, and returning the payload otherwise. -/
def decrypt (env : Env) (identities : List (String × FileData)) (encrypted : CiphertextStream) :
    Except AgeError (Option String) :=
  match load_identities env identities with
  | Except.error e => Except.error e
  | Except.ok ids =>
    match Decryptor_new encrypted with
    | DecryptorNewResult.ok d =>
      if d.is_scrypt then Except.error AgeError.passphraseCiphertext
      else
        if ids.any (fun i => d.unwrapKeys.contains i.key) then Except.ok (some d.payload)
        else Except.error (AgeError.noMatchingIdentity (identities.map (fun pd => pd.1)))
    | DecryptorNewResult.invalidHeader => Except.ok none
    | DecryptorNewResult.ioUnexpectedEof => Except.ok none
    | DecryptorNewResult.ioOther m => Except.error (AgeError.ioError m)

/-! ## Credential acquisition (`src/main.rs`, `resolve_passphrase`) -/

/-- The command-line arguments `resolve_passphrase` reads: the optional
explicit passphrase-getter key (the -g argument). -/
structure Args where
  passphrase_getter : Option String
deriving DecidableEq

/-- The configuration collaborator: the `[passphrase]` table of
git-agecrypt.toml, an opaque mapping from getter keys to shell command
strings. -/
structure AppConfig where
  passphrase : List (String × String)
deriving DecidableEq

/-- `AppConfig::has_passphrase_key`: whether the key is present in the
`[passphrase]` table. -/
def AppConfig.has_passphrase_key (cfg : AppConfig) (key : String) : Bool :=
  (cfg.passphrase.find? (fun p => p.1 == key)).isSome

/-- `AppConfig::get_passphrase_command`: the shell command the
`[passphrase]` table maps the key to, if present. -/
def AppConfig.get_passphrase_command (cfg : AppConfig) (key : String) : Option String :=
  (cfg.passphrase.find? (fun p => p.1 == key)).map (fun p => p.2)

/-- `GetterSource` (`src/main.rs` lines 31-35): how the passphrase getter
was triggered, used only in diagnostics. -/
inductive GetterSource where
  | arg
  | envVar
  | implicitSops
deriving DecidableEq

/-- The `Display` implementation of `GetterSource` (`src/main.rs` lines
37-45), with the getter environment variable name interpolated. -/
def GetterSource.display : GetterSource → String
  | GetterSource.arg => "-g argument"
  | GetterSource.envVar => "AGE_PASSPHRASE_GETTER env var"
  | GetterSource.implicitSops => "implicit sops key in [passphrase] section"

/-- Interface-boundary model of the captured result of
`Command::new("sh").arg("-c").arg(command).output()`: the exit code of the
child, the UTF-8 decoding of its captured standard output as performed by
`String::from_utf8` (`none` when the bytes are not valid UTF-8), and its
captured standard error as rendered lossily into the error message. -/
structure CommandOutput where
  exitCode : Int
  stdoutUtf8 : Option String
  stderr : String

/-- The mutable process world `resolve_passphrase` runs in: the
AGE_PASSPHRASE_GETTER environment variable, the AGE_PASSPHRASE environment
variable together with a count of the writes made to it (modelling
`std::env::set_var`), the outcome of executing a shell command (`none`
models a spawn failure of `Command::output`), and the outcome of
`AppConfig::load` (`none` models a configuration load failure). -/
structure World where
  getterEnvVar : Option String
  agePassphrase : Option String
  passphraseWrites : Nat
  run : String → Option CommandOutput
  configLoad : Option AppConfig

/-- `std::env::set_var("AGE_PASSPHRASE", v)`: one write to the passphrase
environment variable. -/
def setAgePassphrase (w : World) (v : String) : World :=
  { w with agePassphrase := some v, passphraseWrites := w.passphraseWrites + 1 }

/-- Errors raised by `resolve_passphrase` (`src/main.rs`); each constructor
mirrors one failure site and carries the data interpolated into the
message. -/
inductive MainError where
  /-- `AppConfig::load` failed, propagated by the question-mark operator. -/
  | configLoadFailed
  /-- Passphrase getter not found in the `[passphrase]` section (names the
  key and the triggering source). -/
  | getterNotFound (key : String) (source : GetterSource)
  /-- Failed to execute the passphrase command (names the source and the
  command). -/
  | execFailed (source : GetterSource) (command : String)
  /-- Passphrase command failed: non-zero exit (carries the source, the
  command, the exit code and the captured standard error). -/
  | commandFailed (source : GetterSource) (command : String) (exitCode : Int) (stderr : String)
  /-- Passphrase command output is not valid UTF-8. -/
  | notUtf8Output (source : GetterSource) (command : String)
  /-- Passphrase command returned empty output. -/
  | emptyOutput (source : GetterSource) (command : String)

/-- The diagnostic message each `MainError` renders to, following the
format strings of `src/main.rs` (quotes elided). -/
def MainError.message : MainError → String
  | MainError.configLoadFailed => "failed to load git-agecrypt.toml"
  | MainError.getterNotFound key source =>
    "Passphrase getter " ++ key ++
      " not found in [passphrase] section of git-agecrypt.toml (triggered by " ++
      source.display ++ ")"
  | MainError.execFailed source command =>
    "Failed to execute passphrase command (triggered by " ++ source.display ++
      ")\nCommand: " ++ command
  | MainError.commandFailed source command exitCode stderr =>
    "Passphrase command failed (triggered by " ++ source.display ++ ")\nCommand: " ++
      command ++ "\nExit code: " ++ toString exitCode ++ "\nstderr: " ++ stderr
  | MainError.notUtf8Output source command =>
    "Passphrase command output is not valid UTF-8 (triggered by " ++ source.display ++
      ")\nCommand: " ++ command
  | MainError.emptyOutput source command =>
    "Passphrase command returned empty output (triggered by " ++ source.display ++
      ")\nCommand: " ++ command

/-- Model of `str::trim` of the Rust standard library: drop whitespace
characters from both ends of the string. -/
def rustTrim (s : String) : String :=
  String.mk (((s.data.dropWhile Char.isWhitespace).reverse.dropWhile Char.isWhitespace).reverse)

/-- The tail of `resolve_passphrase` (`src/main.rs` lines 90-149), entered
once a getter key and its source are chosen: look the key up in the
`[passphrase]` table (absence is fatal, naming key and source), execute the
command through `sh -c` capturing its output (spawn failure is fatal), fail
on a non-zero exit status with the exit code and captured stderr in the
message, decode the captured stdout as UTF-8 (failure is fatal), trim it,
fail if the trimmed string is empty, and otherwise write it to
AGE_PASSPHRASE.  The world is threaded explicitly; every failure leaves it
unchanged. -/
def execute_getter (w : World) (cfg : AppConfig) (key : String) (source : GetterSource) :
    World × Except MainError Unit :=
  match cfg.get_passphrase_command key with
  | none => (w, Except.error (MainError.getterNotFound key source))
  | some command =>
    match w.run command with
    | none => (w, Except.error (MainError.execFailed source command))
    | some output =>
      if output.exitCode ≠ 0 then
        (w, Except.error (MainError.commandFailed source command output.exitCode output.stderr))
      else
        match output.stdoutUtf8 with
        | none => (w, Except.error (MainError.notUtf8Output source command))
        | some stdout =>
          if rustTrim stdout = "" then (w, Except.error (MainError.emptyOutput source command))
          else (setAgePassphrase w (rustTrim stdout), Except.ok ())

/-- `resolve_passphrase` (`src/main.rs` lines 47-150): load the
configuration (failure propagates), then choose the getter key by priority
— the explicit -g argument first; else the AGE_PASSPHRASE_GETTER
environment variable, where an empty value returns immediately doing
nothing and a non-empty value is used verbatim as the key; else the
implicit sops key, only when present in the `[passphrase]` table, and a
no-op otherwise — and run the chosen getter. -/
def resolve_passphrase (args : Args) (w : World) : World × Except MainError Unit :=
  match w.configLoad with
  | none => (w, Except.error MainError.configLoadFailed)
  | some cfg =>
    match args.passphrase_getter with
    | some key => execute_getter w cfg key GetterSource.arg
    | none =>
      match w.getterEnvVar with
      | some env_value =>
        if env_value = "" then (w, Except.ok ())
        else execute_getter w cfg env_value GetterSource.envVar
      | none =>
        if cfg.has_passphrase_key "sops" then
          execute_getter w cfg "sops" GetterSource.implicitSops
        else (w, Except.ok ())

/-! ## Helper lemmas and fixtures -/

/-- String concatenation is associative. -/
theorem strAppendAssoc : ∀ (a b c : String), a ++ b ++ c = a ++ (b ++ c)
  | String.mk l, String.mk m, String.mk n => congrArg String.mk (List.append_assoc l m n)

/-- `needle` occurs as a contiguous substring of `hay`. -/
def containsSub (hay needle : String) : Prop :=
  ∃ a b, hay = a ++ needle ++ b

/-- A world whose configuration has an empty `[passphrase]` table and whose
getter environment variable is set to the empty string. -/
def emptyGetterWorld : World :=
  { getterEnvVar := some "", agePassphrase := none, passphraseWrites := 0,
    run := fun _ => none, configLoad := some { passphrase := [] } }

/-- A world whose configuration fails to load. -/
def badConfigWorld : World :=
  { getterEnvVar := none, agePassphrase := none, passphraseWrites := 0,
    run := fun _ => none, configLoad := none }

/-- The captured output of a getter command that exits zero and prints a
whitespace-padded secret. -/
def secretOutput : CommandOutput :=
  { exitCode := 0, stdoutUtf8 := some " secret\n", stderr := "" }

/-- A world whose configuration maps the sops key to a getter command that
prints a whitespace-padded secret. -/
def sopsWorld : World :=
  { getterEnvVar := none, agePassphrase := none, passphraseWrites := 0,
    run := fun _ => some secretOutput,
    configLoad := some { passphrase := [("sops", "echo secret")] } }

/-- State discipline of `execute_getter`: every error leaves the world
untouched, and success performs exactly one write of the trimmed command
output to AGE_PASSPHRASE. -/
theorem execute_getter_state (w : World) (cfg : AppConfig) (key : String)
    (source : GetterSource) :
    (∀ e, (execute_getter w cfg key source).2 = Except.error e →
      (execute_getter w cfg key source).1 = w) ∧
    ((execute_getter w cfg key source).2 = Except.ok () →
      ∃ p, (execute_getter w cfg key source).1 = setAgePassphrase w p) := by
  cases hcmd : cfg.get_passphrase_command key with
  | none =>
    constructor
    · intro e _
      simp [execute_getter, hcmd]
    · intro h
      simp [execute_getter, hcmd] at h
  | some command =>
    cases hrun : w.run command with
    | none =>
      constructor
      · intro e _
        simp [execute_getter, hcmd, hrun]
      · intro h
        simp [execute_getter, hcmd, hrun] at h
    | some output =>
      by_cases hexit : output.exitCode = 0
      · cases hstdout : output.stdoutUtf8 with
        | none =>
          constructor
          · intro e _
            simp [execute_getter, hcmd, hrun, hexit, hstdout]
          · intro h
            simp [execute_getter, hcmd, hrun, hexit, hstdout] at h
        | some stdout =>
          by_cases htrim : rustTrim stdout = ""
          · constructor
            · intro e _
              simp [execute_getter, hcmd, hrun, hexit, hstdout, htrim]
            · intro h
              simp [execute_getter, hcmd, hrun, hexit, hstdout, htrim] at h
          · constructor
            · intro e h
              simp [execute_getter, hcmd, hrun, hexit, hstdout, htrim] at h
            · intro _
              exact ⟨rustTrim stdout,
                by simp [execute_getter, hcmd, hrun, hexit, hstdout, htrim]⟩
      · constructor
        · intro e _
          simp [execute_getter, hcmd, hrun, hexit]
        · intro h
          simp [execute_getter, hcmd, hrun, hexit] at h

/-- `resolve_passphrase` either fails on configuration loading with the
world untouched, returns doing nothing with the world untouched, or runs
the chosen getter. -/
theorem resolve_passphrase_shape (args : Args) (w : World) :
    resolve_passphrase args w = (w, Except.error MainError.configLoadFailed) ∨
    resolve_passphrase args w = (w, Except.ok ()) ∨
    ∃ cfg key source, resolve_passphrase args w = execute_getter w cfg key source := by
  cases hc : w.configLoad with
  | none => exact Or.inl (by simp [resolve_passphrase, hc])
  | some cfg =>
    cases ha : args.passphrase_getter with
    | some key =>
      exact Or.inr (Or.inr ⟨cfg, key, GetterSource.arg, by simp [resolve_passphrase, hc, ha]⟩)
    | none =>
      cases hv : w.getterEnvVar with
      | some env_value =>
        by_cases hne : env_value = ""
        · exact Or.inr (Or.inl (by simp [resolve_passphrase, hc, ha, hv, hne]))
        · exact Or.inr (Or.inr ⟨cfg, env_value, GetterSource.envVar,
            by simp [resolve_passphrase, hc, ha, hv, hne]⟩)
      | none =>
        by_cases hs : cfg.has_passphrase_key "sops"
        · exact Or.inr (Or.inr ⟨cfg, "sops", GetterSource.implicitSops,
            by simp [resolve_passphrase, hc, ha, hv, hs]⟩)
        · exact Or.inr (Or.inl (by simp [resolve_passphrase, hc, ha, hv, hs]))

/-! ## The claims -/

/-- C1: the specification claims `load_public_keys` constructs exactly one
aggregated plugin-recipient object per distinct plugin name.  The code
instead constructs one `RecipientPluginV1` per collected plugin recipient
string: two recipient strings naming the same plugin — a single distinct
plugin name — yield two identical aggregated plugin handles. -/
theorem load_public_keys_one_handle_per_string :
    load_public_keys
        [pluginOnlyString "yubikey" "age1yubikey1qa",
         pluginOnlyString "yubikey" "age1yubikey1qb"] =
      Except.ok
        [Recipient.pluginV1 "yubikey"
           [{ plugin := "yubikey", raw := "age1yubikey1qa" },
            { plugin := "yubikey", raw := "age1yubikey1qb" }],
         Recipient.pluginV1 "yubikey"
           [{ plugin := "yubikey", raw := "age1yubikey1qa" },
            { plugin := "yubikey", raw := "age1yubikey1qb" }]] ∧
    (([pluginOnlyString "yubikey" "age1yubikey1qa",
       pluginOnlyString "yubikey" "age1yubikey1qb"].filterMap
        (fun s => s.parsePlugin)).map (fun r => r.plugin)).dedup = ["yubikey"] :=
  ⟨rfl, by decide⟩

/-- C4: the parser order holds, but the specification also claims the
invalid-recipient error identifies the offending string.  The code bails
with the fixed message text, which is independent of the offending string
and does not contain it: two different unparsable strings produce the
identical error. -/
theorem load_public_keys_invalid_recipient_anonymous :
    load_public_keys [unparsableString "not-a-key"] =
      Except.error (AgeError.invalidRecipient "Invalid recipient") ∧
    load_public_keys [unparsableString "ssh-rsa AAAA"] =
      Except.error (AgeError.invalidRecipient "Invalid recipient") ∧
    ¬ ("not-a-key".data <:+: "Invalid recipient".data) :=
  ⟨rfl, rfl, by decide⟩

/-- C2: for an input stream that is empty, truncated before a complete
container header, or arbitrary bytes that are not a recognised container,
`decrypt` returns the absent result and never an error, whenever the
identity files themselves load. -/
theorem decrypt_absent_on_unrecognized (env : Env) (identities : List (String × FileData))
    (s : CiphertextStream)
    (hid : ∃ ids, load_identities env identities = Except.ok ids)
    (hs : s = CiphertextStream.empty ∨ (∃ b, s = CiphertextStream.truncatedHeader b) ∨
      (∃ b, s = CiphertextStream.nonContainer b)) :
    decrypt env identities s = Except.ok none := by
  obtain ⟨ids, hids⟩ := hid
  unfold decrypt
  rw [hids]
  rcases hs with rfl | ⟨b, rfl⟩ | ⟨b, rfl⟩ <;> rfl

/-- Witness for C2: the empty stream with no identity files. -/
theorem decrypt_absent_on_unrecognized_witness :
    decrypt { agePassphrase := none } [] CiphertextStream.empty = Except.ok none :=
  decrypt_absent_on_unrecognized { agePassphrase := none } [] CiphertextStream.empty
    ⟨[], rfl⟩ (Or.inl rfl)

/-- C10: `decrypt` loads and validates every identity file before
inspecting the ciphertext stream: whenever identity loading fails, decrypt
propagates that failure for every stream, including streams that would
otherwise yield the absent result. -/
theorem decrypt_error_when_identities_fail (env : Env)
    (identities : List (String × FileData)) (s : CiphertextStream) (e : AgeError)
    (h : load_identities env identities = Except.error e) :
    decrypt env identities s = Except.error e := by
  unfold decrypt
  rw [h]

/-- Witness for C10: an unreadable identity file makes decrypt fail even on
the empty stream, which with loadable identities yields the absent
result. -/
theorem decrypt_error_when_identities_fail_witness :
    decrypt { agePassphrase := none } [("id.txt", FileData.unreadable)]
        CiphertextStream.empty =
      Except.error (AgeError.openFailed "id.txt") :=
  decrypt_error_when_identities_fail { agePassphrase := none }
    [("id.txt", FileData.unreadable)] CiphertextStream.empty
    (AgeError.openFailed "id.txt") rfl

/-- C5: for identity files that parse as plaintext-native identity files,
`load_identities` never consults the credential: the result is identical
under any two credential states. -/
theorem load_identities_plaintext_noninterference
    (files : List (String × FileData))
    (hplain : ∀ pf ∈ files, ∃ ids, pf.2 = FileData.plaintextIdentityFile ids)
    (e₁ e₂ : Env) :
    load_identities e₁ files = load_identities e₂ files := by
  induction files with
  | nil => rfl
  | cons pf rest ih =>
    obtain ⟨path, data⟩ := pf
    obtain ⟨ids, hids⟩ := hplain (path, data) (List.mem_cons_self _ _)
    simp only at hids
    subst hids
    have hrest := ih (fun q hq => hplain q (List.mem_cons_of_mem _ hq))
    simp only [load_identities, load_one_identity]
    rw [hrest]

/-- Witness for C5: a one-file list, credential unset versus wrong. -/
theorem load_identities_plaintext_noninterference_witness :
    load_identities { agePassphrase := none }
        [("keys.txt", FileData.plaintextIdentityFile [{ key := "AGE-SECRET-KEY-1A" }])] =
      load_identities { agePassphrase := some "wrong" }
        [("keys.txt", FileData.plaintextIdentityFile [{ key := "AGE-SECRET-KEY-1A" }])] :=
  load_identities_plaintext_noninterference
    [("keys.txt", FileData.plaintextIdentityFile [{ key := "AGE-SECRET-KEY-1A" }])]
    (fun pf hpf => by
      rw [List.mem_singleton] at hpf
      exact ⟨[{ key := "AGE-SECRET-KEY-1A" }], by rw [hpf]⟩)
    { agePassphrase := none } { agePassphrase := some "wrong" }

/-- C6: for a passphrase-wrapped identity file, loading fails with the
credential-required error naming the path when the credential is unset,
fails with the distinct decrypt error when a wrong credential is set, and
succeeds with the inner identities when the correct credential is set. -/
theorem load_identities_scrypt_cases (path pass : String) (ids : List NativeIdentity) :
    (load_identities { agePassphrase := none }
        [(path, FileData.scryptContainer pass (InnerContent.nativeIdentities ids))] =
      Except.error (AgeError.passphraseNotSet path)) ∧
    (∀ p, p ≠ pass →
      load_identities { agePassphrase := some p }
          [(path, FileData.scryptContainer pass (InnerContent.nativeIdentities ids))] =
        Except.error (AgeError.decryptFailed path)) ∧
    (load_identities { agePassphrase := some pass }
        [(path, FileData.scryptContainer pass (InnerContent.nativeIdentities ids))] =
      Except.ok ids) ∧
    (∀ q r : String, AgeError.passphraseNotSet q ≠ AgeError.decryptFailed r) := by
  refine ⟨rfl, ?_, ?_, fun q r h => AgeError.noConfusion h⟩
  · intro p hp
    simp [load_identities, load_one_identity, hp]
  · simp [load_identities, load_one_identity, InnerContent.isValidUtf8,
      InnerContent.parseIdentityBuffer]

/-- Witness for C6: wrong credential against a concrete wrapped file. -/
theorem load_identities_scrypt_cases_witness :
    load_identities { agePassphrase := some "wrong" }
        [("id.age", FileData.scryptContainer "right"
            (InnerContent.nativeIdentities [{ key := "K" }]))] =
      Except.error (AgeError.decryptFailed "id.age") :=
  (load_identities_scrypt_cases "id.age" "right" [{ key := "K" }]).2.1 "wrong" (by decide)

/-- C7: decryption of a passphrase-wrapped identity file recurses to depth
exactly one: a wrapped file whose decrypted content is itself another
passphrase-wrapped container fails under every credential state; with the
correct credential, non-UTF-8 inner bytes fail the UTF-8 check and a nested
armored container fails the plaintext re-parse. -/
theorem load_identities_depth_one (env : Env) (path pass : String) (armored : Bool) :
    (∃ e, load_identities env
        [(path, FileData.scryptContainer pass (InnerContent.nestedScryptContainer armored))] =
      Except.error e) ∧
    (load_identities { agePassphrase := some pass }
        [(path, FileData.scryptContainer pass InnerContent.binaryGarbage)] =
      Except.error (AgeError.notUtf8 path)) ∧
    (load_identities { agePassphrase := some pass }
        [(path, FileData.scryptContainer pass (InnerContent.nestedScryptContainer true))] =
      Except.error (AgeError.parseDecryptedFailed path)) := by
  refine ⟨?_, ?_, ?_⟩
  · obtain ⟨op⟩ := env
    cases op with
    | none => exact ⟨AgeError.passphraseNotSet path, rfl⟩
    | some p =>
      by_cases hp : p = pass
      · subst hp
        cases armored
        · exact ⟨AgeError.notUtf8 path,
            by simp [load_identities, load_one_identity, InnerContent.isValidUtf8]⟩
        · exact ⟨AgeError.parseDecryptedFailed path,
            by simp [load_identities, load_one_identity, InnerContent.isValidUtf8,
              InnerContent.parseIdentityBuffer]⟩
      · exact ⟨AgeError.decryptFailed path,
          by simp [load_identities, load_one_identity, hp]⟩
  · simp [load_identities, load_one_identity, InnerContent.isValidUtf8]
  · simp [load_identities, load_one_identity, InnerContent.isValidUtf8,
      InnerContent.parseIdentityBuffer]

/-- C3: the getter key is chosen by strict priority: the explicit argument
wins when present; otherwise a non-empty getter environment variable is
used verbatim regardless of the configuration; the empty getter environment
variable suppresses acquisition, returning immediately without error; with
the variable unset, the implicit sops key is used exactly when it exists in
the `[passphrase]` table, and resolution is a no-op otherwise. -/
theorem resolve_passphrase_priority (args : Args) (w : World) (cfg : AppConfig)
    (hc : w.configLoad = some cfg) :
    (∀ k, args.passphrase_getter = some k →
      resolve_passphrase args w = execute_getter w cfg k GetterSource.arg) ∧
    (args.passphrase_getter = none → ∀ v, w.getterEnvVar = some v → v ≠ "" →
      resolve_passphrase args w = execute_getter w cfg v GetterSource.envVar) ∧
    (args.passphrase_getter = none → w.getterEnvVar = some "" →
      resolve_passphrase args w = (w, Except.ok ())) ∧
    (args.passphrase_getter = none → w.getterEnvVar = none →
      resolve_passphrase args w =
        if cfg.has_passphrase_key "sops" then
          execute_getter w cfg "sops" GetterSource.implicitSops
        else (w, Except.ok ())) := by
  refine ⟨?_, ?_, ?_, ?_⟩
  · intro k hk
    simp [resolve_passphrase, hc, hk]
  · intro ha v hv hne
    simp [resolve_passphrase, hc, ha, hv, hne]
  · intro ha hv
    simp [resolve_passphrase, hc, ha, hv]
  · intro ha hv
    simp [resolve_passphrase, hc, ha, hv]

/-- Witness for C3: the empty getter environment variable suppresses the
getter and resolution returns immediately without error. -/
theorem resolve_passphrase_priority_witness :
    resolve_passphrase { passphrase_getter := none } emptyGetterWorld =
      (emptyGetterWorld, Except.ok ()) :=
  (resolve_passphrase_priority { passphrase_getter := none } emptyGetterWorld
      { passphrase := [] } rfl).2.2.1 rfl rfl

/-- C8: once the getter command executes, a non-zero exit status is a fatal
error whose message carries the exit code and the captured standard error;
non-UTF-8 captured output is fatal; output whose trim is empty is fatal;
otherwise the trimmed output is written to AGE_PASSPHRASE. -/
theorem execute_getter_outcomes (w : World) (cfg : AppConfig) (key command : String)
    (source : GetterSource) (output : CommandOutput)
    (hcmd : cfg.get_passphrase_command key = some command)
    (hrun : w.run command = some output) :
    (output.exitCode ≠ 0 →
      execute_getter w cfg key source =
        (w, Except.error
          (MainError.commandFailed source command output.exitCode output.stderr))) ∧
    containsSub
      (MainError.commandFailed source command output.exitCode output.stderr).message
      (toString output.exitCode) ∧
    containsSub
      (MainError.commandFailed source command output.exitCode output.stderr).message
      output.stderr ∧
    (output.exitCode = 0 → output.stdoutUtf8 = none →
      execute_getter w cfg key source =
        (w, Except.error (MainError.notUtf8Output source command))) ∧
    (∀ s, output.exitCode = 0 → output.stdoutUtf8 = some s → rustTrim s = "" →
      execute_getter w cfg key source =
        (w, Except.error (MainError.emptyOutput source command))) ∧
    (∀ s, output.exitCode = 0 → output.stdoutUtf8 = some s → rustTrim s ≠ "" →
      execute_getter w cfg key source = (setAgePassphrase w (rustTrim s), Except.ok ())) := by
  refine ⟨?_, ?_, ?_, ?_, ?_, ?_⟩
  · intro hexit
    simp [execute_getter, hcmd, hrun, hexit]
  · exact ⟨"Passphrase command failed (triggered by " ++ source.display ++ ")\nCommand: " ++
      command ++ "\nExit code: ", "\nstderr: " ++ output.stderr,
      by simp only [MainError.message, strAppendAssoc]⟩
  · exact ⟨"Passphrase command failed (triggered by " ++ source.display ++ ")\nCommand: " ++
      command ++ "\nExit code: " ++ toString output.exitCode ++ "\nstderr: ", "",
      by simp only [MainError.message, String.append_empty, strAppendAssoc]⟩
  · intro hexit hstdout
    simp [execute_getter, hcmd, hrun, hexit, hstdout]
  · intro s hexit hstdout htrim
    simp [execute_getter, hcmd, hrun, hexit, hstdout, htrim]
  · intro s hexit hstdout htrim
    simp [execute_getter, hcmd, hrun, hexit, hstdout, htrim]

/-- Witness for C8: a zero-exit getter whose padded output is trimmed and
written as the credential. -/
theorem execute_getter_outcomes_witness :
    execute_getter sopsWorld { passphrase := [("sops", "echo secret")] } "sops"
        GetterSource.implicitSops =
      (setAgePassphrase sopsWorld "secret", Except.ok ()) := by
  have h := (execute_getter_outcomes sopsWorld { passphrase := [("sops", "echo secret")] }
    "sops" "echo secret" GetterSource.implicitSops secretOutput rfl rfl).2.2.2.2.2
    " secret\n" rfl rfl (by decide)
  rw [show rustTrim " secret\n" = "secret" from by decide] at h
  exact h

/-- C9: `resolve_passphrase` is atomic with respect to AGE_PASSPHRASE: on
every error path the world — in particular the passphrase variable and its
write count — is unchanged, and a successful run either leaves the world
unchanged (no getter applied) or performs exactly one write of the fetched
credential. -/
theorem resolve_passphrase_atomic (args : Args) (w : World) :
    (∀ e, (resolve_passphrase args w).2 = Except.error e →
      (resolve_passphrase args w).1 = w) ∧
    ((resolve_passphrase args w).2 = Except.ok () →
      (resolve_passphrase args w).1 = w ∨
      ∃ p, (resolve_passphrase args w).1 = setAgePassphrase w p) := by
  rcases resolve_passphrase_shape args w with h | h | ⟨cfg, key, source, h⟩
  · rw [h]
    exact ⟨fun e _ => rfl, fun hk => by simp at hk⟩
  · rw [h]
    exact ⟨fun e hk => by simp at hk, fun _ => Or.inl rfl⟩
  · rw [h]
    exact ⟨(execute_getter_state w cfg key source).1,
      fun hk => Or.inr ((execute_getter_state w cfg key source).2 hk)⟩

/-- Witness for C9: a failing configuration load leaves the world
unchanged. -/
theorem resolve_passphrase_atomic_witness :
    (resolve_passphrase { passphrase_getter := none } badConfigWorld).1 = badConfigWorld :=
  (resolve_passphrase_atomic { passphrase_getter := none } badConfigWorld).1
    MainError.configLoadFailed rfl

end GitAgecrypt
